import Mathlib

/-!
Shallow embedding of the MoonTV TMDB proxy layer.

Source units modelled:
* `TmdbUtils`  — the shared utility module (`tmdb.utils`): the search-strategy
  resolver, the TMDB→Douban item converters (split-on-hyphen year rule) and
  the small formatting helpers.
* `TmdbRouteA` — the `tag`/`type` strategy-based route handler (first half of
  `src/app/api/tmdb/route.ts`).
* `TmdbRouteB` — the `kind`/`category`/`type` category route handler (second
  half of `src/app/api/tmdb/route.ts`).
* `SearchRoute` — the `tag`/`type` free-text search route handler (regex year
  rule, no timeout, single generic error branch).
* `CatRoute`   — the simple `kind`/`category`/`type` category route handler
  (regex year rule, no timeout, single generic error branch).

JavaScript-level behaviour (truthiness, `parseInt` producing `NaN`, `NaN`
comparisons, `Math.floor` division, object spread) is modelled explicitly in
the `JsModel` namespace.  JS numbers that the code only ever treats as
integers or `NaN` are modelled as `Option Int` with `none` standing for
`NaN`; TMDB vote averages are modelled as `Option ℚ` with `none` standing
for an absent (`undefined`) field.
-/

namespace JsModel

/-- Truthiness of a nullable string (`null`/absent and `""` are falsy). -/
def jsTruthyOptStr (o : Option String) : Bool :=
  match o with
  | none => false
  | some s => s ≠ ""

/-- JS `a || d` for a nullable string `a` and a string default `d`:
the default is taken when `a` is `null`/absent or the empty string. -/
def jsOrDefault (o : Option String) (d : String) : String :=
  match o with
  | none => d
  | some s => if s = "" then d else s

/-- JS `a || b` on two strings (`""` is falsy). -/
def jsOrStr (a b : String) : String :=
  if a = "" then a else b

/-- Decimal value of a nonempty prefix of digits; `none` when the first
character is not a digit (the `NaN` case of `parseInt`). -/
def digitsPrefix (cs : List Char) : Option Nat :=
  let ds := cs.takeWhile Char.isDigit
  if ds.isEmpty then none
  else some (ds.foldl (fun acc c => acc * 10 + (c.toNat - ('0').toNat)) 0)

/-- JS `parseInt(s)` (base 10): skip leading whitespace, optional sign,
then a maximal run of digits; `none` models `NaN`.  The hexadecimal
`0x` form is not modelled (never exercised by this code). -/
def parseIntJS (s : String) : Option Int :=
  let cs := s.data.dropWhile (fun c => c = ' ' ∨ c = '\t' ∨ c = '\n' ∨ c = '\r')
  match cs with
  | '-' :: rest => (digitsPrefix rest).map (fun n => -(n : Int))
  | '+' :: rest => (digitsPrefix rest).map (fun n => (n : Int))
  | _ => (digitsPrefix cs).map (fun n => (n : Int))

/-- JS `x < b` for a possibly-`NaN` number `x`: every comparison with
`NaN` is `false`. -/
def jsLt (x : Option Int) (b : Int) : Bool :=
  match x with
  | none => false
  | some v => v < b

/-- JS `x > b` for a possibly-`NaN` number `x`. -/
def jsGt (x : Option Int) (b : Int) : Bool :=
  match x with
  | none => false
  | some v => v > b

/-- JS `Math.floor(a / b) + 1` on possibly-`NaN` operands.  `NaN`
propagates.  `b = 0` (which would give `Infinity`) cannot occur in the
handlers: a zero page size is rejected by validation before this point;
it is mapped to `none` here. -/
def jsFloorDivPlus1 (a b : Option Int) : Option Int :=
  match a, b with
  | some x, some y => if y = 0 then none else some (Int.fdiv x y + 1)
  | _, _ => none

/-- A query-parameter value: string, number (`none` = `NaN`) or boolean. -/
inductive PValue where
  | str (s : String)
  | num (n : Option Int)
  | bool (b : Bool)
deriving DecidableEq, Repr

/-- An ordered record of query parameters, as a JS object is built up. -/
abbrev Params := List (String × PValue)

/-- Read a key from a parameter record. -/
def pget (ps : Params) (k : String) : Option PValue :=
  (List.find? (fun p => p.1 = k) ps).map (fun p => p.2)

/-- JS property assignment `ps[k] = v`: overwrite in place when the key
exists, else append (insertion order preserved, as in JS objects). -/
def pset (ps : Params) (k : String) (v : PValue) : Params :=
  if (List.find? (fun p => p.1 = k) ps).isSome then
    List.map (fun p => if p.1 = k then (k, v) else p) ps
  else
    ps ++ [(k, v)]

/-- JS object spread `\x7b ...a, ...b \x7d`: assign each entry of `b` over `a`. -/
def pmerge (a b : Params) : Params :=
  List.foldl (fun acc kv => pset acc kv.1 kv.2) a b

/-- Truthiness of a possibly-absent JS number (absent and `0` are falsy). -/
def jsTruthyQ (x : Option ℚ) : Bool :=
  match x with
  | none => false
  | some q => q ≠ 0

/-- JS `Number.prototype.toFixed(1)` for the nonnegative ratings this code
formats: round half-up to one decimal digit and print `i.d`.  The rounded
value `⌊q * 10 + 1 / 2⌋` is computed directly on the reduced fraction so
that it evaluates by kernel reduction. -/
def toFixed1 (q : ℚ) : String :=
  let n : Int := Int.fdiv (20 * q.num + (q.den : Int)) (2 * (q.den : Int))
  toString (n / 10) ++ "." ++ toString (n % 10)

/-- A raw item of the upstream JSON result list.  The handlers cast each
item to their movie or series interface by field access, so the model
carries the union of the fields the converters read; a field the JSON
lacks reads as its falsy default. -/
structure RawItem where
  id : Nat
  title : String
  original_title : String
  name : String
  original_name : String
  poster_path : Option String
  release_date : String
  first_air_date : String
  vote_average : Option ℚ
deriving DecidableEq, Repr

/-- The internal normalized item shape (`DoubanItem`). -/
structure DoubanItem where
  id : String
  title : String
  poster : String
  rate : String
  year : String
deriving DecidableEq, Repr

/-- The response envelope (`DoubanResult`). -/
structure DoubanResult where
  code : Nat
  message : String
  list : List DoubanItem
deriving DecidableEq, Repr

/-- Body of an HTTP response produced by a handler: either the error
object `\x7b error: msg \x7d` or a success envelope. -/
inductive Body where
  | err (msg : String)
  | ok (r : DoubanResult)
deriving DecidableEq, Repr

/-- Outcome of the single outbound fetch, as observed by a handler:
a parsed result list, a non-2xx upstream status, an abort (timeout),
or some other thrown exception with a `name` and `message`. -/
inductive Upstream where
  | ok (items : List RawItem)
  | httpStatus (code : Nat)
  | abort
  | exn (name msg : String)
deriving DecidableEq, Repr

/-- A JS `Error` as far as the catch blocks inspect it. -/
structure JsError where
  name : String
  message : String
deriving DecidableEq, Repr

/-- The `Error` a handler's try-block throws for a given failed fetch:
a non-ok response throws `Error("TMDB API error: " + status)`, an abort
surfaces as an `AbortError`. -/
def errorOf : Upstream → JsError
  | .ok _ => ⟨"Error", ""⟩
  | .httpStatus c => ⟨"Error", "TMDB API error: " ++ toString c⟩
  | .abort => ⟨"AbortError", "The operation was aborted"⟩
  | .exn n m => ⟨n, m⟩

/-- JS `String.prototype.includes`. -/
def strIncludes (hay needle : String) : Bool :=
  decide (needle.data <:+: hay.data)

/-- Result of one handler invocation: HTTP status, JSON body, and the
outbound request issued (`none` when no network call was made).  The
request shape `ρ` differs per handler. -/
structure HandlerOut (ρ : Type) where
  status : Nat
  body : Body
  request : Option ρ
deriving DecidableEq, Repr

end JsModel

namespace TmdbUtils

open JsModel

/-- The movie interface of the utils module (fields the code reads;
`poster_path` is `string | null`). -/
structure TMDBMovie where
  id : Nat
  title : String
  original_title : String
  poster_path : Option String
  release_date : String
  vote_average : Option ℚ
deriving DecidableEq, Repr

/-- The series interface of the utils module. -/
structure TMDBSeries where
  id : Nat
  name : String
  original_name : String
  poster_path : Option String
  first_air_date : String
  vote_average : Option ℚ
deriving DecidableEq, Repr

/-- A resolved search strategy: endpoint plus query parameters. -/
structure SearchStrategy where
  endpoint : String
  params : Params
deriving DecidableEq, Repr

/-- The `baseParams` object built at the top of `getSearchStrategy`. -/
def baseParams : Params :=
  [("include_adult", PValue.bool false), ("include_video", PValue.bool false)]

/-- `getSearchStrategy(tag, type)`: the category-label to upstream-query
table, switch cases rendered as an if-chain. -/
def getSearchStrategy (tag type : String) : SearchStrategy :=
  if type = "movie" then
    if tag = "热门" then ⟨"/movie/popular", baseParams⟩
    else if tag = "最新" then ⟨"/movie/now_playing", baseParams⟩
    else if tag = "即将上映" then ⟨"/movie/upcoming", baseParams⟩
    else if tag = "高分" ∨ tag = "豆瓣高分" then ⟨"/movie/top_rated", baseParams⟩
    else if tag = "华语" then
      ⟨"/discover/movie",
        pset (pset baseParams "with_origin_country" (PValue.str "CN"))
          "sort_by" (PValue.str "popularity.desc")⟩
    else if tag = "欧美" then
      ⟨"/discover/movie",
        pset (pset baseParams "with_origin_country" (PValue.str "US"))
          "sort_by" (PValue.str "popularity.desc")⟩
    else if tag = "韩国" then
      ⟨"/discover/movie",
        pset (pset baseParams "with_origin_country" (PValue.str "KR"))
          "sort_by" (PValue.str "popularity.desc")⟩
    else if tag = "日本" then
      ⟨"/discover/movie",
        pset (pset baseParams "with_origin_country" (PValue.str "JP"))
          "sort_by" (PValue.str "popularity.desc")⟩
    else if tag = "动漫" then
      ⟨"/discover/movie",
        pset (pset baseParams "with_genres" (PValue.str "16"))
          "sort_by" (PValue.str "popularity.desc")⟩
    else if tag = "纪录片" then
      ⟨"/discover/movie",
        pset (pset baseParams "with_genres" (PValue.str "99"))
          "sort_by" (PValue.str "popularity.desc")⟩
    else if tag = "冷门佳片" then
      ⟨"/discover/movie",
        pset (pset baseParams "sort_by" (PValue.str "vote_average.desc"))
          "vote_count.gte" (PValue.num (some 100))⟩
    else
      ⟨"/search/movie", pset baseParams "query" (PValue.str tag)⟩
  else if type = "tv" then
    if tag = "热门" then ⟨"/tv/popular", baseParams⟩
    else if tag = "华语" then
      ⟨"/discover/tv",
        pset (pset baseParams "with_origin_country" (PValue.str "CN"))
          "sort_by" (PValue.str "popularity.desc")⟩
    else if tag = "欧美" then
      ⟨"/discover/tv",
        pset (pset baseParams "with_origin_country" (PValue.str "US"))
          "sort_by" (PValue.str "popularity.desc")⟩
    else if tag = "韩国" then
      ⟨"/discover/tv",
        pset (pset baseParams "with_origin_country" (PValue.str "KR"))
          "sort_by" (PValue.str "popularity.desc")⟩
    else if tag = "日本" then
      ⟨"/discover/tv",
        pset (pset baseParams "with_origin_country" (PValue.str "JP"))
          "sort_by" (PValue.str "popularity.desc")⟩
    else if tag = "动漫" then
      ⟨"/discover/tv",
        pset (pset baseParams "with_genres" (PValue.str "16"))
          "sort_by" (PValue.str "popularity.desc")⟩
    else if tag = "纪录片" then
      ⟨"/discover/tv",
        pset (pset baseParams "with_genres" (PValue.str "99"))
          "sort_by" (PValue.str "popularity.desc")⟩
    else if tag = "综艺" then
      ⟨"/discover/tv",
        pset (pset baseParams "with_genres" (PValue.str "10764"))
          "sort_by" (PValue.str "popularity.desc")⟩
    else
      ⟨"/search/tv", pset baseParams "query" (PValue.str tag)⟩
  else
    ⟨"/movie/popular", baseParams⟩

/-- `dateString.split("-")[0]`: the segment before the first hyphen. -/
def splitFirstSeg (s : String) : String :=
  ⟨s.data.takeWhile (fun c => c ≠ '-')⟩

/-- `formatYear(dateString)`: empty for a falsy date, else the segment
before the first hyphen. -/
def formatYear (dateString : String) : String :=
  if dateString = "" then "" else splitFirstSeg dateString

/-- `convertTMDBMovieToDoubanItem` of the utils module (split-on-hyphen
year rule, `title || original_title` fallback). -/
def convertTMDBMovieToDoubanItem (movie : TMDBMovie) : DoubanItem :=
  { id := toString movie.id
    title := if movie.title = "" then movie.original_title else movie.title
    poster :=
      if jsTruthyOptStr movie.poster_path then
        "https://image.tmdb.org/t/p/w500" ++ movie.poster_path.getD ""
      else ""
    rate :=
      if jsTruthyQ movie.vote_average then toFixed1 (movie.vote_average.getD 0)
      else ""
    year :=
      if movie.release_date = "" then "" else splitFirstSeg movie.release_date }

/-- `convertTMDBSeriesToDoubanItem` of the utils module. -/
def convertTMDBSeriesToDoubanItem (series : TMDBSeries) : DoubanItem :=
  { id := toString series.id
    title := if series.name = "" then series.original_name else series.name
    poster :=
      if jsTruthyOptStr series.poster_path then
        "https://image.tmdb.org/t/p/w500" ++ series.poster_path.getD ""
      else ""
    rate :=
      if jsTruthyQ series.vote_average then toFixed1 (series.vote_average.getD 0)
      else ""
    year :=
      if series.first_air_date = "" then ""
      else splitFirstSeg series.first_air_date }

/-- Cast of a raw upstream item to the movie interface of the utils
module (the `item as TMDBMovie` cast in the route). -/
def asMovie (r : RawItem) : TMDBMovie :=
  ⟨r.id, r.title, r.original_title, r.poster_path, r.release_date,
    r.vote_average⟩

/-- Cast of a raw upstream item to the series interface of the utils
module (the `item as TMDBSeries` cast in the route). -/
def asSeries (r : RawItem) : TMDBSeries :=
  ⟨r.id, r.name, r.original_name, r.poster_path, r.first_air_date,
    r.vote_average⟩

end TmdbUtils

namespace JsModel

/-- The catch block shared verbatim by both halves of `route.ts`: an
abort maps to 408, a message containing `401` to 500 (invalid key),
`429` to 429, `500` to 502, anything else to 500 with the handler's
generic message. -/
def tmdbRouteCatch (generic : String) (e : JsError) : Nat × String :=
  if e.name = "AbortError" then (408, "请求超时，请稍后重试")
  else if strIncludes e.message "401" then (500, "TMDB API Key 无效")
  else if strIncludes e.message "429" then (429, "TMDB API 请求过于频繁，请稍后再试")
  else if strIncludes e.message "500" then (502, "TMDB 服务器错误")
  else (500, generic)

end JsModel

namespace TmdbRouteA

open JsModel TmdbUtils

/-- Raw query parameters of the `tag`/`type` route (absent = `null`). -/
structure Req where
  tag : Option String
  type : Option String
  pageSize : Option String
  pageStart : Option String
deriving DecidableEq, Repr

/-- The outbound request of this route: strategy endpoint plus the
cleaned query parameters (page merged in). -/
abbrev Out := HandlerOut (String × Params)

/-- The `GET` handler of the `tag`/`type` half of `route.ts`.  `apiKey`
is the `TMDB_API_KEY` environment value, `upstream` the outcome of the
single outbound fetch (consumed only when a request is issued). -/
def GET (req : Req) (apiKey : Option String) (upstream : Upstream) : Out :=
  let pageSize := parseIntJS (jsOrDefault req.pageSize "20")
  let pageStart := parseIntJS (jsOrDefault req.pageStart "0")
  if ¬ jsTruthyOptStr req.tag ∨ ¬ jsTruthyOptStr req.type then
    ⟨400, Body.err "缺少必要参数：tag 或 type", none⟩
  else
    let tag := req.tag.getD ""
    let type := req.type.getD ""
    if ¬ (type = "tv" ∨ type = "movie") then
      ⟨400, Body.err "type 参数必须是 tv 或 movie", none⟩
    else if jsLt pageSize 1 ∨ jsGt pageSize 100 then
      ⟨400, Body.err "pageSize 必须在 1-100 之间", none⟩
    else if jsLt pageStart 0 then
      ⟨400, Body.err "pageStart 不能小于 0", none⟩
    else if ¬ jsTruthyOptStr apiKey then
      ⟨500, Body.err "TMDB API Key 未配置", none⟩
    else if tag = "综艺" ∧ type = "movie" then
      ⟨200, Body.ok ⟨200, "获取成功", []⟩, none⟩
    else
      let strategy := getSearchStrategy tag type
      let page := jsFloorDivPlus1 pageStart pageSize
      -- `\x7b ...strategy.params, page \x7d`; the null/undefined filter keeps
      -- every entry, since no parameter value is nullish
      let params := pset strategy.params "page" (PValue.num page)
      match upstream with
      | .ok items =>
          let list := items.map (fun item =>
            if type = "movie" then convertTMDBMovieToDoubanItem (asMovie item)
            else convertTMDBSeriesToDoubanItem (asSeries item))
          ⟨200, Body.ok ⟨200, "获取成功", list⟩, some (strategy.endpoint, params)⟩
      | u =>
          let r := tmdbRouteCatch "获取 TMDB 搜索数据失败" (errorOf u)
          ⟨r.1, Body.err r.2, some (strategy.endpoint, params)⟩

end TmdbRouteA

namespace SearchRoute

open JsModel

/-- The movie interface of the free-text search route. -/
structure TMDBMovie where
  id : Nat
  title : String
  poster_path : String
  vote_average : Option ℚ
  release_date : String
deriving DecidableEq, Repr

/-- The series interface of the free-text search route. -/
structure TMDBSeries where
  id : Nat
  name : String
  poster_path : String
  vote_average : Option ℚ
  first_air_date : String
deriving DecidableEq, Repr

/-- `getTMDBImageUrl(posterPath, size = "w500")`. -/
def getTMDBImageUrl (posterPath : String) (size : String := "w500") : String :=
  if posterPath = "" then ""
  else "https://image.tmdb.org/t/p/" ++ size ++ posterPath

/-- The left-to-right scan of `dateString.match(/(\d{4})/)`: the first
position with four consecutive digits wins. -/
def scanYear : List Char → Option (List Char)
  | a :: b :: c :: d :: rest =>
      if a.isDigit ∧ b.isDigit ∧ c.isDigit ∧ d.isDigit then some [a, b, c, d]
      else scanYear (b :: c :: d :: rest)
  | _ => none

/-- `extractYear(dateString)`: empty for a falsy date, else the first
run of four digits, or empty when the regex does not match. -/
def extractYear (dateString : String) : String :=
  if dateString = "" then ""
  else
    match scanYear dateString.data with
    | some ys => ⟨ys⟩
    | none => ""

/-- `convertTMDBMovieToDoubanItem` of the search route (regex year rule,
no title fallback). -/
def convertTMDBMovieToDoubanItem (movie : TMDBMovie) : DoubanItem :=
  { id := toString movie.id
    title := movie.title
    poster := getTMDBImageUrl movie.poster_path
    rate :=
      if jsTruthyQ movie.vote_average then toFixed1 (movie.vote_average.getD 0)
      else ""
    year := extractYear movie.release_date }

/-- `convertTMDBSeriesToDoubanItem` of the search route. -/
def convertTMDBSeriesToDoubanItem (series : TMDBSeries) : DoubanItem :=
  { id := toString series.id
    title := series.name
    poster := getTMDBImageUrl series.poster_path
    rate :=
      if jsTruthyQ series.vote_average then toFixed1 (series.vote_average.getD 0)
      else ""
    year := extractYear series.first_air_date }

/-- Cast of a raw upstream item to this route's movie interface (a JSON
`null` poster reads as the falsy empty string here, since the interface
declares a plain string). -/
def asMovie (r : RawItem) : TMDBMovie :=
  ⟨r.id, r.title, r.poster_path.getD "", r.vote_average, r.release_date⟩

/-- Cast of a raw upstream item to this route's series interface. -/
def asSeries (r : RawItem) : TMDBSeries :=
  ⟨r.id, r.name, r.poster_path.getD "", r.vote_average, r.first_air_date⟩

/-- Raw query parameters of the search route. -/
structure Req where
  tag : Option String
  type : Option String
  pageSize : Option String
  pageStart : Option String
deriving DecidableEq, Repr

/-- The components interpolated into this route's search URL. -/
structure SentRequest where
  type : String
  query : String
  page : Option Int
deriving DecidableEq, Repr

abbrev Out := HandlerOut SentRequest

/-- The `GET` handler of the free-text search route: same validation as
the strategy route, no timeout, and a single generic catch branch that
maps every fetch failure to HTTP 500. -/
def GET (req : Req) (apiKey : Option String) (upstream : Upstream) : Out :=
  let pageSize := parseIntJS (jsOrDefault req.pageSize "20")
  let pageStart := parseIntJS (jsOrDefault req.pageStart "0")
  if ¬ jsTruthyOptStr req.tag ∨ ¬ jsTruthyOptStr req.type then
    ⟨400, Body.err "缺少必要参数：tag 或 type", none⟩
  else
    let tag := req.tag.getD ""
    let type := req.type.getD ""
    if ¬ (type = "tv" ∨ type = "movie") then
      ⟨400, Body.err "type 参数必须是 tv 或 movie", none⟩
    else if jsLt pageSize 1 ∨ jsGt pageSize 100 then
      ⟨400, Body.err "pageSize 必须在 1-100 之间", none⟩
    else if jsLt pageStart 0 then
      ⟨400, Body.err "pageStart 不能小于 0", none⟩
    else if ¬ jsTruthyOptStr apiKey then
      ⟨500, Body.err "TMDB API Key 未配置", none⟩
    else
      let page := jsFloorDivPlus1 pageStart pageSize
      match upstream with
      | .ok items =>
          let list := items.map (fun item =>
            if type = "movie" then convertTMDBMovieToDoubanItem (asMovie item)
            else convertTMDBSeriesToDoubanItem (asSeries item))
          ⟨200, Body.ok ⟨200, "获取成功", list⟩, some ⟨type, tag, page⟩⟩
      | _ =>
          ⟨500, Body.err "获取 TMDB 搜索数据失败", some ⟨type, tag, page⟩⟩

end SearchRoute

namespace CatRoute

open JsModel

/-- The movie-side endpoint switch of the simple category route. -/
def movieEndpoint (category : String) : String :=
  if category = "热门" then "/movie/popular"
  else if category = "最新" then "/movie/now_playing"
  else if category = "即将上映" then "/movie/upcoming"
  else if category = "高分" then "/movie/top_rated"
  else "/movie/popular"

/-- The tv-side endpoint switch of the simple category route. -/
def tvEndpoint (category : String) : String :=
  if category = "热门" then "/tv/popular"
  else if category = "最新" then "/tv/on_the_air"
  else if category = "即将上映" then "/tv/airing_today"
  else if category = "高分" then "/tv/top_rated"
  else "/tv/popular"

/-- Raw query parameters of the simple category route. -/
structure Req where
  kind : Option String
  category : Option String
  type : Option String
  limit : Option String
  start : Option String
deriving DecidableEq, Repr

/-- The components interpolated into this route's URL. -/
structure SentRequest where
  endpoint : String
  page : Option Int
deriving DecidableEq, Repr

abbrev Out := HandlerOut SentRequest

/-- The `GET` handler of the simple category route: `kind` defaults to
`"movie"` before validation; converters (regex year rule) are duplicated
verbatim from the search route, so its definitions are reused here. -/
def GET (req : Req) (apiKey : Option String) (upstream : Upstream) : Out :=
  let kind := jsOrDefault req.kind "movie"
  let limit := parseIntJS (jsOrDefault req.limit "20")
  let start := parseIntJS (jsOrDefault req.start "0")
  if kind = "" ∨ ¬ jsTruthyOptStr req.category ∨ ¬ jsTruthyOptStr req.type then
    ⟨400, Body.err "缺少必要参数：kind 或 category 或 type", none⟩
  else
    let category := req.category.getD ""
    if ¬ (kind = "tv" ∨ kind = "movie") then
      ⟨400, Body.err "kind 参数必须是 tv 或 movie", none⟩
    else if jsLt limit 1 ∨ jsGt limit 100 then
      ⟨400, Body.err "pageSize 必须在 1-100 之间", none⟩
    else if jsLt start 0 then
      ⟨400, Body.err "pageStart 不能小于 0", none⟩
    else if ¬ jsTruthyOptStr apiKey then
      ⟨500, Body.err "TMDB API Key 未配置", none⟩
    else
      let endpoint :=
        if kind = "movie" then movieEndpoint category else tvEndpoint category
      let page := jsFloorDivPlus1 start limit
      match upstream with
      | .ok items =>
          let list := items.map (fun item =>
            if kind = "movie" then
              SearchRoute.convertTMDBMovieToDoubanItem (SearchRoute.asMovie item)
            else
              SearchRoute.convertTMDBSeriesToDoubanItem (SearchRoute.asSeries item))
          ⟨200, Body.ok ⟨200, "获取成功", list⟩, some ⟨endpoint, page⟩⟩
      | _ =>
          ⟨500, Body.err "获取 TMDB 分类数据失败", some ⟨endpoint, page⟩⟩

end CatRoute

namespace TmdbRouteB

open JsModel TmdbUtils

/-- The movie-side base-endpoint switch of the `kind`/`category`/`type`
half of `route.ts` (the `category` switch). -/
def movieBase (category : String) : String × Params :=
  if category = "热门" then ("/movie/popular", [])
  else if category = "最新" then ("/movie/now_playing", [])
  else if category = "即将上映" then ("/movie/upcoming", [])
  else if category = "高分" ∨ category = "豆瓣高分" then ("/movie/top_rated", [])
  else if category = "冷门佳片" then
    ("/discover/movie",
      pset (pset [] "sort_by" (PValue.str "vote_average.desc"))
        "vote_count.gte" (PValue.str "100"))
  else ("/movie/popular", [])

/-- The movie-side region/genre refinement (the `type` switch), applied
to the base endpoint and parameters. -/
def movieRefine (type : String) (ep : String) (ps : Params) : String × Params :=
  if type = "华语" then
    if ep = "/discover/movie" then (ep, pset ps "with_origin_country" (PValue.str "CN"))
    else ("/discover/movie",
      pset (pset ps "with_origin_country" (PValue.str "CN"))
        "sort_by" (PValue.str "popularity.desc"))
  else if type = "欧美" then
    if ep = "/discover/movie" then (ep, pset ps "with_origin_country" (PValue.str "US"))
    else ("/discover/movie",
      pset (pset ps "with_origin_country" (PValue.str "US"))
        "sort_by" (PValue.str "popularity.desc"))
  else if type = "韩国" then
    if ep = "/discover/movie" then (ep, pset ps "with_origin_country" (PValue.str "KR"))
    else ("/discover/movie",
      pset (pset ps "with_origin_country" (PValue.str "KR"))
        "sort_by" (PValue.str "popularity.desc"))
  else if type = "日本" then
    if ep = "/discover/movie" then (ep, pset ps "with_origin_country" (PValue.str "JP"))
    else ("/discover/movie",
      pset (pset ps "with_origin_country" (PValue.str "JP"))
        "sort_by" (PValue.str "popularity.desc"))
  else if type = "动漫" then
    ("/discover/movie",
      pset (pset ps "with_genres" (PValue.str "16"))
        "sort_by" (PValue.str "popularity.desc"))
  else if type = "纪录片" then
    ("/discover/movie",
      pset (pset ps "with_genres" (PValue.str "99"))
        "sort_by" (PValue.str "popularity.desc"))
  else (ep, ps)

/-- The tv-side strategy of the `kind`/`category`/`type` half of
`route.ts` (the nested `category`/`type` switches). -/
def tvStrategy (category type : String) : String × Params :=
  if category = "tv" then
    if type = "tv" then ("/tv/popular", [])
    else if type = "tv_domestic" then
      ("/discover/tv",
        pset (pset [] "with_origin_country" (PValue.str "CN"))
          "sort_by" (PValue.str "popularity.desc"))
    else if type = "tv_american" then
      ("/discover/tv",
        pset (pset [] "with_origin_country" (PValue.str "US"))
          "sort_by" (PValue.str "popularity.desc"))
    else if type = "tv_japanese" then
      ("/discover/tv",
        pset (pset [] "with_origin_country" (PValue.str "JP"))
          "sort_by" (PValue.str "popularity.desc"))
    else if type = "tv_korean" then
      ("/discover/tv",
        pset (pset [] "with_origin_country" (PValue.str "KR"))
          "sort_by" (PValue.str "popularity.desc"))
    else if type = "tv_animation" then
      ("/discover/tv",
        pset (pset [] "with_genres" (PValue.str "16"))
          "sort_by" (PValue.str "popularity.desc"))
    else if type = "tv_documentary" then
      ("/discover/tv",
        pset (pset [] "with_genres" (PValue.str "99"))
          "sort_by" (PValue.str "popularity.desc"))
    else ("/tv/popular", [])
  else if category = "show" then
    if type = "show" then
      ("/discover/tv",
        pset (pset [] "with_genres" (PValue.str "10764"))
          "sort_by" (PValue.str "popularity.desc"))
    else if type = "show_domestic" then
      ("/discover/tv",
        pset (pset (pset [] "with_genres" (PValue.str "10764"))
            "with_origin_country" (PValue.str "CN"))
          "sort_by" (PValue.str "popularity.desc"))
    else if type = "show_foreign" then
      ("/discover/tv",
        pset (pset (pset [] "with_genres" (PValue.str "10764"))
            "with_origin_country" (PValue.str "US"))
          "sort_by" (PValue.str "popularity.desc"))
    else
      ("/discover/tv",
        pset (pset [] "with_genres" (PValue.str "10764"))
          "sort_by" (PValue.str "popularity.desc"))
  else ("/tv/popular", [])

/-- The base `params` object of this handler before the branch switches:
`params.page = page; params.include_adult = false;
params.include_video = false`. -/
def baseThree (page : Option Int) : Params :=
  pset (pset (pset [] "page" (PValue.num page))
      "include_adult" (PValue.bool false))
    "include_video" (PValue.bool false)

/-- The branch-specific endpoint and `baseParams` for the given kind. -/
def rawStrategy (kind category type : String) : String × Params :=
  if kind = "movie" then
    movieRefine type (movieBase category).1 (movieBase category).2
  else
    tvStrategy category type

/-- The full endpoint-and-parameter construction of this handler: the
base parameters merged with the branch-specific parameters via
`\x7b ...params, ...baseParams \x7d`. -/
def buildParams (kind category type : String) (page : Option Int) :
    String × Params :=
  ((rawStrategy kind category type).1,
    pmerge (baseThree page) (rawStrategy kind category type).2)

/-- Raw query parameters of the `kind`/`category`/`type` half of
`route.ts`. -/
structure Req where
  kind : Option String
  category : Option String
  type : Option String
  limit : Option String
  start : Option String
deriving DecidableEq, Repr

abbrev Out := HandlerOut (String × Params)

/-- The `GET` handler of the `kind`/`category`/`type` half of
`route.ts`: `kind` defaults to `"movie"` before validation; items are
converted with the utils-module converters (split year rule). -/
def GET (req : Req) (apiKey : Option String) (upstream : Upstream) : Out :=
  let kind := jsOrDefault req.kind "movie"
  let limit := parseIntJS (jsOrDefault req.limit "20")
  let start := parseIntJS (jsOrDefault req.start "0")
  if kind = "" ∨ ¬ jsTruthyOptStr req.category ∨ ¬ jsTruthyOptStr req.type then
    ⟨400, Body.err "缺少必要参数：kind 或 category 或 type", none⟩
  else
    let category := req.category.getD ""
    let type := req.type.getD ""
    if ¬ (kind = "tv" ∨ kind = "movie") then
      ⟨400, Body.err "kind 参数必须是 tv 或 movie", none⟩
    else if jsLt limit 1 ∨ jsGt limit 100 then
      ⟨400, Body.err "pageLimit 必须在 1-100 之间", none⟩
    else if jsLt start 0 then
      ⟨400, Body.err "pageStart 不能小于 0", none⟩
    else if ¬ jsTruthyOptStr apiKey then
      ⟨500, Body.err "TMDB API Key 未配置", none⟩
    else
      let page := jsFloorDivPlus1 start limit
      let s := buildParams kind category type page
      match upstream with
      | .ok items =>
          let list := items.map (fun item =>
            if kind = "movie" then convertTMDBMovieToDoubanItem (asMovie item)
            else convertTMDBSeriesToDoubanItem (asSeries item))
          ⟨200, Body.ok ⟨200, "获取成功", list⟩, some s⟩
      | u =>
          let r := tmdbRouteCatch "获取 TMDB 分类数据失败" (errorOf u)
          ⟨r.1, Body.err r.2, some s⟩

end TmdbRouteB

/-- The fixed table of known movie category labels of
`getSearchStrategy` (its movie switch cases, in order). -/
def movieKnownLabels : List String :=
  ["热门", "最新", "即将上映", "高分", "豆瓣高分", "华语", "欧美", "韩国",
    "日本", "动漫", "纪录片", "冷门佳片"]

/-- The fixed table of known tv category labels of `getSearchStrategy`
(its tv switch cases, in order). -/
def tvKnownLabels : List String :=
  ["热门", "华语", "欧美", "韩国", "日本", "动漫", "纪录片", "综艺"]

namespace JsModel

lemma find_map_pset (ps : Params) (k : String) (v : PValue)
    (h : (List.find? (fun p => p.1 = k) ps).isSome) :
    List.find? (fun p => p.1 = k)
      (List.map (fun p => if p.1 = k then (k, v) else p) ps) = some (k, v) := by
  induction ps with
  | nil => simp at h
  | cons p ps ih =>
    by_cases hp : p.1 = k
    · simp [List.find?_cons, hp]
    · rw [List.map_cons, if_neg hp, List.find?_cons_of_neg _ (by simpa using hp)]
      rw [List.find?_cons_of_neg _ (by simpa using hp)] at h
      exact ih h

lemma pget_pset_self (ps : Params) (k : String) (v : PValue) :
    pget (pset ps k v) k = some v := by
  unfold pset
  by_cases h : (List.find? (fun p => p.1 = k) ps).isSome
  · rw [if_pos h]
    unfold pget
    rw [find_map_pset ps k v h]
    rfl
  · rw [if_neg h]
    unfold pget
    rw [List.find?_append, Option.not_isSome_iff_eq_none.mp h]
    simp [List.find?_cons]

lemma scanYear_spec :
    ∀ (cs ys : List Char), SearchRoute.scanYear cs = some ys →
      ys.length = 4 ∧ ys.all Char.isDigit = true := by
  intro cs
  induction cs with
  | nil => intro ys h; simp [SearchRoute.scanYear] at h
  | cons a rest ih =>
    intro ys h
    match rest, ih with
    | [], _ => simp [SearchRoute.scanYear] at h
    | [b], _ => simp [SearchRoute.scanYear] at h
    | [b, c], _ => simp [SearchRoute.scanYear] at h
    | b :: c :: d :: rest2, ih =>
      rw [SearchRoute.scanYear] at h
      by_cases hd : (a.isDigit ∧ b.isDigit ∧ c.isDigit ∧ d.isDigit : Prop)
      · rw [if_pos hd] at h
        obtain ⟨h1, h2, h3, h4⟩ := hd
        cases h
        refine ⟨rfl, ?_⟩
        simp [List.all_cons, h1, h2, h3, h4]
      · rw [if_neg hd] at h
        exact ih ys h

lemma extractYear_spec (d : String) :
    SearchRoute.extractYear d = "" ∨
      ((SearchRoute.extractYear d).length = 4 ∧
        (SearchRoute.extractYear d).data.all Char.isDigit = true) := by
  unfold SearchRoute.extractYear
  by_cases hd : d = ""
  · rw [if_pos hd]; exact Or.inl rfl
  · rw [if_neg hd]
    cases hsc : SearchRoute.scanYear d.data with
    | none => exact Or.inl rfl
    | some ys =>
      right
      obtain ⟨hlen, hdig⟩ := scanYear_spec d.data ys hsc
      exact ⟨hlen, hdig⟩

end JsModel

/-- Claim C1 (counterexample): the split-on-hyphen converters of the
utils module can produce a `year` that is neither empty nor four digits
(`"19-01-01"` gives `"19"`), and at `"19-2021"` the split rule and the
regex rule of the search route disagree — the extraction rule is not
consistent across handlers. -/
theorem claim1_counterexample :
    (TmdbUtils.convertTMDBMovieToDoubanItem
        ⟨1, "T", "T", none, "19-01-01", none⟩).year = "19"
  ∧ (((TmdbUtils.convertTMDBMovieToDoubanItem
        ⟨1, "T", "T", none, "19-01-01", none⟩).year = ""
      ∨ (TmdbUtils.convertTMDBMovieToDoubanItem
          ⟨1, "T", "T", none, "19-01-01", none⟩).year.length = 4) = False)
  ∧ (((TmdbUtils.convertTMDBMovieToDoubanItem
        ⟨1, "T", "T", none, "19-2021", none⟩).year =
      (SearchRoute.convertTMDBMovieToDoubanItem
        ⟨1, "T", "", none, "19-2021"⟩).year) = False) :=
  ⟨rfl, eq_false (by decide), eq_false (by decide)⟩

/-- Claim C1 (amended): only the regex-based handlers guarantee the
invariant — for every upstream item, the `year` produced by the search
and simple-category route converters is either empty or exactly four
digits (the first 4-digit run of the date); the split-on-hyphen
converters of the utils module do not guarantee it. -/
theorem claim1_theorem (m : SearchRoute.TMDBMovie) (s : SearchRoute.TMDBSeries) :
    ((SearchRoute.convertTMDBMovieToDoubanItem m).year = "" ∨
      ((SearchRoute.convertTMDBMovieToDoubanItem m).year.length = 4 ∧
        (SearchRoute.convertTMDBMovieToDoubanItem m).year.data.all
          Char.isDigit = true))
  ∧ ((SearchRoute.convertTMDBSeriesToDoubanItem s).year = "" ∨
      ((SearchRoute.convertTMDBSeriesToDoubanItem s).year.length = 4 ∧
        (SearchRoute.convertTMDBSeriesToDoubanItem s).year.data.all
          Char.isDigit = true)) :=
  ⟨JsModel.extractYear_spec m.release_date,
    JsModel.extractYear_spec s.first_air_date⟩


/-- Claim C2 (counterexample): the exclude-video baseline parameter is
included for the series/tv kind as well — the strategy resolver and the
category handler both set `include_video=false` unconditionally. -/
theorem claim2_counterexample :
    JsModel.pget (TmdbUtils.getSearchStrategy "热门" "tv").params
      "include_video" = some (JsModel.PValue.bool false)
  ∧ JsModel.pget (TmdbRouteB.buildParams "tv" "tv" "tv" (some 1)).2
      "include_video" = some (JsModel.PValue.bool false) :=
  ⟨rfl, rfl⟩

set_option maxHeartbeats 3200000 in
/-- Claim C2 (amended): every resolved strategy includes
`include_adult=false` and `include_video=false` for both content kinds
(not movie only); the page number is merged into the outbound
parameters by the request handlers, so every issued request carries
`page` as well. -/
theorem claim2_theorem :
    (∀ tag type : String,
      JsModel.pget (TmdbUtils.getSearchStrategy tag type).params
        "include_adult" = some (JsModel.PValue.bool false)
      ∧ JsModel.pget (TmdbUtils.getSearchStrategy tag type).params
        "include_video" = some (JsModel.PValue.bool false))
  ∧ (∀ (kind category type : String) (page : Option Int),
      JsModel.pget (TmdbRouteB.buildParams kind category type page).2
        "page" = some (JsModel.PValue.num page)
      ∧ JsModel.pget (TmdbRouteB.buildParams kind category type page).2
        "include_adult" = some (JsModel.PValue.bool false)
      ∧ JsModel.pget (TmdbRouteB.buildParams kind category type page).2
        "include_video" = some (JsModel.PValue.bool false))
  ∧ (∀ (req : TmdbRouteA.Req) (key : Option String) (u : JsModel.Upstream)
      (r : String × JsModel.Params),
      (TmdbRouteA.GET req key u).request = some r →
      (JsModel.pget r.2 "page").isSome = true) := by
  refine ⟨?_, ?_, ?_⟩
  · intro tag type
    unfold TmdbUtils.getSearchStrategy
    by_cases ht : type = "movie"
    · rw [if_pos ht]
      by_cases hm0 : tag = "热门"
      · rw [if_pos hm0]
        exact ⟨rfl, rfl⟩
      · rw [if_neg hm0]
        by_cases hm1 : tag = "最新"
        · rw [if_pos hm1]
          exact ⟨rfl, rfl⟩
        · rw [if_neg hm1]
          by_cases hm2 : tag = "即将上映"
          · rw [if_pos hm2]
            exact ⟨rfl, rfl⟩
          · rw [if_neg hm2]
            by_cases hm3 : tag = "高分" ∨ tag = "豆瓣高分"
            · rw [if_pos hm3]
              exact ⟨rfl, rfl⟩
            · rw [if_neg hm3]
              by_cases hm4 : tag = "华语"
              · rw [if_pos hm4]
                exact ⟨rfl, rfl⟩
              · rw [if_neg hm4]
                by_cases hm5 : tag = "欧美"
                · rw [if_pos hm5]
                  exact ⟨rfl, rfl⟩
                · rw [if_neg hm5]
                  by_cases hm6 : tag = "韩国"
                  · rw [if_pos hm6]
                    exact ⟨rfl, rfl⟩
                  · rw [if_neg hm6]
                    by_cases hm7 : tag = "日本"
                    · rw [if_pos hm7]
                      exact ⟨rfl, rfl⟩
                    · rw [if_neg hm7]
                      by_cases hm8 : tag = "动漫"
                      · rw [if_pos hm8]
                        exact ⟨rfl, rfl⟩
                      · rw [if_neg hm8]
                        by_cases hm9 : tag = "纪录片"
                        · rw [if_pos hm9]
                          exact ⟨rfl, rfl⟩
                        · rw [if_neg hm9]
                          by_cases hm10 : tag = "冷门佳片"
                          · rw [if_pos hm10]
                            exact ⟨rfl, rfl⟩
                          · rw [if_neg hm10]
                            exact ⟨rfl, rfl⟩
    · rw [if_neg ht]
      by_cases ht2 : type = "tv"
      · rw [if_pos ht2]
        by_cases hv0 : tag = "热门"
        · rw [if_pos hv0]
          exact ⟨rfl, rfl⟩
        · rw [if_neg hv0]
          by_cases hv1 : tag = "华语"
          · rw [if_pos hv1]
            exact ⟨rfl, rfl⟩
          · rw [if_neg hv1]
            by_cases hv2 : tag = "欧美"
            · rw [if_pos hv2]
              exact ⟨rfl, rfl⟩
            · rw [if_neg hv2]
              by_cases hv3 : tag = "韩国"
              · rw [if_pos hv3]
                exact ⟨rfl, rfl⟩
              · rw [if_neg hv3]
                by_cases hv4 : tag = "日本"
                · rw [if_pos hv4]
                  exact ⟨rfl, rfl⟩
                · rw [if_neg hv4]
                  by_cases hv5 : tag = "动漫"
                  · rw [if_pos hv5]
                    exact ⟨rfl, rfl⟩
                  · rw [if_neg hv5]
                    by_cases hv6 : tag = "纪录片"
                    · rw [if_pos hv6]
                      exact ⟨rfl, rfl⟩
                    · rw [if_neg hv6]
                      by_cases hv7 : tag = "综艺"
                      · rw [if_pos hv7]
                        exact ⟨rfl, rfl⟩
                      · rw [if_neg hv7]
                        exact ⟨rfl, rfl⟩
      · rw [if_neg ht2]
        exact ⟨rfl, rfl⟩
  · intro kind category type page
    unfold TmdbRouteB.buildParams TmdbRouteB.rawStrategy TmdbRouteB.movieBase TmdbRouteB.movieRefine TmdbRouteB.tvStrategy TmdbRouteB.baseThree
    by_cases hk : kind = "movie"
    · rw [if_pos hk]
      by_cases htm0 : type = "华语"
      · rw [if_pos htm0]
        by_cases hc0_0 : category = "热门"
        · rw [if_pos hc0_0]
          exact ⟨rfl, rfl, rfl⟩
        · rw [if_neg hc0_0]
          by_cases hc0_1 : category = "最新"
          · rw [if_pos hc0_1]
            exact ⟨rfl, rfl, rfl⟩
          · rw [if_neg hc0_1]
            by_cases hc0_2 : category = "即将上映"
            · rw [if_pos hc0_2]
              exact ⟨rfl, rfl, rfl⟩
            · rw [if_neg hc0_2]
              by_cases hc0_3 : category = "高分" ∨ category = "豆瓣高分"
              · rw [if_pos hc0_3]
                exact ⟨rfl, rfl, rfl⟩
              · rw [if_neg hc0_3]
                by_cases hc0_4 : category = "冷门佳片"
                · rw [if_pos hc0_4]
                  exact ⟨rfl, rfl, rfl⟩
                · rw [if_neg hc0_4]
                  exact ⟨rfl, rfl, rfl⟩
      · rw [if_neg htm0]
        by_cases htm1 : type = "欧美"
        · rw [if_pos htm1]
          by_cases hc1_0 : category = "热门"
          · rw [if_pos hc1_0]
            exact ⟨rfl, rfl, rfl⟩
          · rw [if_neg hc1_0]
            by_cases hc1_1 : category = "最新"
            · rw [if_pos hc1_1]
              exact ⟨rfl, rfl, rfl⟩
            · rw [if_neg hc1_1]
              by_cases hc1_2 : category = "即将上映"
              · rw [if_pos hc1_2]
                exact ⟨rfl, rfl, rfl⟩
              · rw [if_neg hc1_2]
                by_cases hc1_3 : category = "高分" ∨ category = "豆瓣高分"
                · rw [if_pos hc1_3]
                  exact ⟨rfl, rfl, rfl⟩
                · rw [if_neg hc1_3]
                  by_cases hc1_4 : category = "冷门佳片"
                  · rw [if_pos hc1_4]
                    exact ⟨rfl, rfl, rfl⟩
                  · rw [if_neg hc1_4]
                    exact ⟨rfl, rfl, rfl⟩
        · rw [if_neg htm1]
          by_cases htm2 : type = "韩国"
          · rw [if_pos htm2]
            by_cases hc2_0 : category = "热门"
            · rw [if_pos hc2_0]
              exact ⟨rfl, rfl, rfl⟩
            · rw [if_neg hc2_0]
              by_cases hc2_1 : category = "最新"
              · rw [if_pos hc2_1]
                exact ⟨rfl, rfl, rfl⟩
              · rw [if_neg hc2_1]
                by_cases hc2_2 : category = "即将上映"
                · rw [if_pos hc2_2]
                  exact ⟨rfl, rfl, rfl⟩
                · rw [if_neg hc2_2]
                  by_cases hc2_3 : category = "高分" ∨ category = "豆瓣高分"
                  · rw [if_pos hc2_3]
                    exact ⟨rfl, rfl, rfl⟩
                  · rw [if_neg hc2_3]
                    by_cases hc2_4 : category = "冷门佳片"
                    · rw [if_pos hc2_4]
                      exact ⟨rfl, rfl, rfl⟩
                    · rw [if_neg hc2_4]
                      exact ⟨rfl, rfl, rfl⟩
          · rw [if_neg htm2]
            by_cases htm3 : type = "日本"
            · rw [if_pos htm3]
              by_cases hc3_0 : category = "热门"
              · rw [if_pos hc3_0]
                exact ⟨rfl, rfl, rfl⟩
              · rw [if_neg hc3_0]
                by_cases hc3_1 : category = "最新"
                · rw [if_pos hc3_1]
                  exact ⟨rfl, rfl, rfl⟩
                · rw [if_neg hc3_1]
                  by_cases hc3_2 : category = "即将上映"
                  · rw [if_pos hc3_2]
                    exact ⟨rfl, rfl, rfl⟩
                  · rw [if_neg hc3_2]
                    by_cases hc3_3 : category = "高分" ∨ category = "豆瓣高分"
                    · rw [if_pos hc3_3]
                      exact ⟨rfl, rfl, rfl⟩
                    · rw [if_neg hc3_3]
                      by_cases hc3_4 : category = "冷门佳片"
                      · rw [if_pos hc3_4]
                        exact ⟨rfl, rfl, rfl⟩
                      · rw [if_neg hc3_4]
                        exact ⟨rfl, rfl, rfl⟩
            · rw [if_neg htm3]
              by_cases htm4 : type = "动漫"
              · rw [if_pos htm4]
                by_cases hc4_0 : category = "热门"
                · rw [if_pos hc4_0]
                  exact ⟨rfl, rfl, rfl⟩
                · rw [if_neg hc4_0]
                  by_cases hc4_1 : category = "最新"
                  · rw [if_pos hc4_1]
                    exact ⟨rfl, rfl, rfl⟩
                  · rw [if_neg hc4_1]
                    by_cases hc4_2 : category = "即将上映"
                    · rw [if_pos hc4_2]
                      exact ⟨rfl, rfl, rfl⟩
                    · rw [if_neg hc4_2]
                      by_cases hc4_3 : category = "高分" ∨ category = "豆瓣高分"
                      · rw [if_pos hc4_3]
                        exact ⟨rfl, rfl, rfl⟩
                      · rw [if_neg hc4_3]
                        by_cases hc4_4 : category = "冷门佳片"
                        · rw [if_pos hc4_4]
                          exact ⟨rfl, rfl, rfl⟩
                        · rw [if_neg hc4_4]
                          exact ⟨rfl, rfl, rfl⟩
              · rw [if_neg htm4]
                by_cases htm5 : type = "纪录片"
                · rw [if_pos htm5]
                  by_cases hc5_0 : category = "热门"
                  · rw [if_pos hc5_0]
                    exact ⟨rfl, rfl, rfl⟩
                  · rw [if_neg hc5_0]
                    by_cases hc5_1 : category = "最新"
                    · rw [if_pos hc5_1]
                      exact ⟨rfl, rfl, rfl⟩
                    · rw [if_neg hc5_1]
                      by_cases hc5_2 : category = "即将上映"
                      · rw [if_pos hc5_2]
                        exact ⟨rfl, rfl, rfl⟩
                      · rw [if_neg hc5_2]
                        by_cases hc5_3 : category = "高分" ∨ category = "豆瓣高分"
                        · rw [if_pos hc5_3]
                          exact ⟨rfl, rfl, rfl⟩
                        · rw [if_neg hc5_3]
                          by_cases hc5_4 : category = "冷门佳片"
                          · rw [if_pos hc5_4]
                            exact ⟨rfl, rfl, rfl⟩
                          · rw [if_neg hc5_4]
                            exact ⟨rfl, rfl, rfl⟩
                · rw [if_neg htm5]
                  by_cases hcE_0 : category = "热门"
                  · rw [if_pos hcE_0]
                    exact ⟨rfl, rfl, rfl⟩
                  · rw [if_neg hcE_0]
                    by_cases hcE_1 : category = "最新"
                    · rw [if_pos hcE_1]
                      exact ⟨rfl, rfl, rfl⟩
                    · rw [if_neg hcE_1]
                      by_cases hcE_2 : category = "即将上映"
                      · rw [if_pos hcE_2]
                        exact ⟨rfl, rfl, rfl⟩
                      · rw [if_neg hcE_2]
                        by_cases hcE_3 : category = "高分" ∨ category = "豆瓣高分"
                        · rw [if_pos hcE_3]
                          exact ⟨rfl, rfl, rfl⟩
                        · rw [if_neg hcE_3]
                          by_cases hcE_4 : category = "冷门佳片"
                          · rw [if_pos hcE_4]
                            exact ⟨rfl, rfl, rfl⟩
                          · rw [if_neg hcE_4]
                            exact ⟨rfl, rfl, rfl⟩
    · rw [if_neg hk]
      by_cases hct : category = "tv"
      · rw [if_pos hct]
        by_cases htv0 : type = "tv"
        · rw [if_pos htv0]
          exact ⟨rfl, rfl, rfl⟩
        · rw [if_neg htv0]
          by_cases htv1 : type = "tv_domestic"
          · rw [if_pos htv1]
            exact ⟨rfl, rfl, rfl⟩
          · rw [if_neg htv1]
            by_cases htv2 : type = "tv_american"
            · rw [if_pos htv2]
              exact ⟨rfl, rfl, rfl⟩
            · rw [if_neg htv2]
              by_cases htv3 : type = "tv_japanese"
              · rw [if_pos htv3]
                exact ⟨rfl, rfl, rfl⟩
              · rw [if_neg htv3]
                by_cases htv4 : type = "tv_korean"
                · rw [if_pos htv4]
                  exact ⟨rfl, rfl, rfl⟩
                · rw [if_neg htv4]
                  by_cases htv5 : type = "tv_animation"
                  · rw [if_pos htv5]
                    exact ⟨rfl, rfl, rfl⟩
                  · rw [if_neg htv5]
                    by_cases htv6 : type = "tv_documentary"
                    · rw [if_pos htv6]
                      exact ⟨rfl, rfl, rfl⟩
                    · rw [if_neg htv6]
                      exact ⟨rfl, rfl, rfl⟩
      · rw [if_neg hct]
        by_cases hcs : category = "show"
        · rw [if_pos hcs]
          by_cases hts0 : type = "show"
          · rw [if_pos hts0]
            exact ⟨rfl, rfl, rfl⟩
          · rw [if_neg hts0]
            by_cases hts1 : type = "show_domestic"
            · rw [if_pos hts1]
              exact ⟨rfl, rfl, rfl⟩
            · rw [if_neg hts1]
              by_cases hts2 : type = "show_foreign"
              · rw [if_pos hts2]
                exact ⟨rfl, rfl, rfl⟩
              · rw [if_neg hts2]
                exact ⟨rfl, rfl, rfl⟩
        · rw [if_neg hcs]
          exact ⟨rfl, rfl, rfl⟩
  · intro req key u r h
    simp only [TmdbRouteA.GET] at h
    split at h
    · simp at h
    · split at h
      · simp at h
      · split at h
        · simp at h
        · split at h
          · simp at h
          · split at h
            · simp at h
            · split at h
              · simp at h
              · split at h
                · simp only [Option.some.injEq] at h
                  subst h
                  rw [JsModel.pget_pset_self]
                  rfl
                · simp only [Option.some.injEq] at h
                  subst h
                  rw [JsModel.pget_pset_self]
                  rfl

/-- Claim C2 (witness): the amended claim instantiated — the movie
popular strategy carries `include_adult=false`, and the issued request
of a concrete valid call to the strategy route carries a `page`
parameter. -/
theorem claim2_witness :
    JsModel.pget (TmdbUtils.getSearchStrategy "热门" "movie").params
      "include_adult" = some (JsModel.PValue.bool false)
  ∧ (JsModel.pget
      [("include_adult", JsModel.PValue.bool false),
        ("include_video", JsModel.PValue.bool false),
        ("page", JsModel.PValue.num (some 1))] "page").isSome = true :=
  ⟨(claim2_theorem.1 "热门" "movie").1,
    claim2_theorem.2.2 ⟨some "热门", some "movie", none, none⟩ (some "k")
      (JsModel.Upstream.ok [])
      ("/movie/popular",
        [("include_adult", JsModel.PValue.bool false),
          ("include_video", JsModel.PValue.bool false),
          ("page", JsModel.PValue.num (some 1))]) rfl⟩


/-- Claim C7: for a category label outside the fixed table of the given
kind, the strategy resolver falls back to the free-text search endpoint
of that kind with `query` set to exactly the supplied label. -/
theorem claim7_theorem (tag type : String)
    (htype : type = "movie" ∨ type = "tv")
    (hm : type = "movie" → tag ∉ movieKnownLabels)
    (ht : type = "tv" → tag ∉ tvKnownLabels) :
    (TmdbUtils.getSearchStrategy tag type).endpoint = "/search/" ++ type
  ∧ JsModel.pget (TmdbUtils.getSearchStrategy tag type).params "query" =
      some (JsModel.PValue.str tag) := by
  rcases htype with h | h
  · have hnotin := hm h
    simp only [movieKnownLabels, List.mem_cons, List.not_mem_nil, or_false,
      not_or] at hnotin
    obtain ⟨n1, n2, n3, n4, n5, n6, n7, n8, n9, n10, n11, n12⟩ := hnotin
    subst h
    unfold TmdbUtils.getSearchStrategy
    rw [if_pos rfl, if_neg n1, if_neg n2, if_neg n3,
      if_neg (not_or.mpr ⟨n4, n5⟩), if_neg n6, if_neg n7, if_neg n8,
      if_neg n9, if_neg n10, if_neg n11, if_neg n12]
    exact ⟨rfl, rfl⟩
  · have hnotin := ht h
    simp only [tvKnownLabels, List.mem_cons, List.not_mem_nil, or_false,
      not_or] at hnotin
    obtain ⟨n1, n2, n3, n4, n5, n6, n7, n8⟩ := hnotin
    subst h
    unfold TmdbUtils.getSearchStrategy
    rw [if_neg (by decide), if_pos rfl, if_neg n1, if_neg n2, if_neg n3,
      if_neg n4, if_neg n5, if_neg n6, if_neg n7, if_neg n8]
    exact ⟨rfl, rfl⟩

/-- Claim C7 (witness): the unknown label `"武侠"` with the movie kind
resolves to the movie search endpoint with itself as query. -/
theorem claim7_witness :
    (TmdbUtils.getSearchStrategy "武侠" "movie").endpoint = "/search/" ++ "movie"
  ∧ JsModel.pget (TmdbUtils.getSearchStrategy "武侠" "movie").params "query" =
      some (JsModel.PValue.str "武侠") :=
  claim7_theorem "武侠" "movie" (Or.inl rfl) (fun _ => by decide)
    (fun hh => absurd hh (by decide))

/-- Claim C4: with the API key configured, a movie-kind request for the
variety-show category short-circuits to the success envelope with an
empty list and no outbound call, whatever the upstream would have
answered. -/
theorem claim4_theorem (key : String) (hkey : key ≠ "") (u : JsModel.Upstream) :
    TmdbRouteA.GET ⟨some "综艺", some "movie", none, none⟩ (some key) u =
      ⟨200, JsModel.Body.ok ⟨200, "获取成功", []⟩, none⟩ := by
  simp [TmdbRouteA.GET, JsModel.jsTruthyOptStr, JsModel.jsOrDefault,
    JsModel.parseIntJS, JsModel.jsLt, JsModel.jsGt, JsModel.digitsPrefix, hkey]

/-- Claim C4 (witness): the short-circuit at a concrete key and
upstream outcome. -/
theorem claim4_witness :
    TmdbRouteA.GET ⟨some "综艺", some "movie", none, none⟩ (some "k")
      JsModel.Upstream.abort =
      ⟨200, JsModel.Body.ok ⟨200, "获取成功", []⟩, none⟩ :=
  claim4_theorem "k" (by decide) JsModel.Upstream.abort

/-- Claim C9: a non-numeric page-size string parses to `NaN`, both range
comparisons are false, so validation passes and the handlers proceed,
sending a `NaN` page to upstream (status 200, not 400). -/
theorem claim9_theorem :
    JsModel.parseIntJS "abc" = none
  ∧ JsModel.jsLt (JsModel.parseIntJS "abc") 1 = false
  ∧ JsModel.jsGt (JsModel.parseIntJS "abc") 100 = false
  ∧ (TmdbRouteA.GET ⟨some "热门", some "movie", some "abc", none⟩ (some "k")
      (JsModel.Upstream.ok [])).status = 200
  ∧ (TmdbRouteA.GET ⟨some "热门", some "movie", some "abc", none⟩ (some "k")
      (JsModel.Upstream.ok [])).request =
      some ("/movie/popular",
        [("include_adult", JsModel.PValue.bool false),
          ("include_video", JsModel.PValue.bool false),
          ("page", JsModel.PValue.num none)])
  ∧ (CatRoute.GET ⟨none, some "热门", some "tv", some "abc", none⟩ (some "k")
      (JsModel.Upstream.ok [])).status = 200
  ∧ (CatRoute.GET ⟨none, some "热门", some "tv", some "abc", none⟩ (some "k")
      (JsModel.Upstream.ok [])).request = some ⟨"/movie/popular", none⟩ := by
  decide

/-- Claim C10: in the `kind`/`category`/`type` variants the `kind`
parameter is defaulted to `"movie"` before validation, so a request
without `kind` behaves exactly like one with `kind=movie`, and the
defaulted value is never falsy — the missing-`kind` disjunct of the
validation can never fire. -/
theorem claim10_theorem :
    (∀ (category type limit start key : Option String) (u : JsModel.Upstream),
      CatRoute.GET ⟨none, category, type, limit, start⟩ key u =
        CatRoute.GET ⟨some "movie", category, type, limit, start⟩ key u)
  ∧ (∀ (category type limit start key : Option String) (u : JsModel.Upstream),
      TmdbRouteB.GET ⟨none, category, type, limit, start⟩ key u =
        TmdbRouteB.GET ⟨some "movie", category, type, limit, start⟩ key u)
  ∧ (∀ k : Option String, (JsModel.jsOrDefault k "movie" = "") = False) := by
  refine ⟨fun _ _ _ _ _ _ => rfl, fun _ _ _ _ _ _ => rfl, fun k => ?_⟩
  cases k with
  | none => exact eq_false (by decide)
  | some s =>
    by_cases hs : s = ""
    · simp [JsModel.jsOrDefault, hs]
    · simp [JsModel.jsOrDefault, hs]

/-- Claim C5 (counterexample): in the `kind`/`category`/`type` variant a
request omitting the content-kind parameter `kind` is not rejected —
`kind` is defaulted to `"movie"` and the request succeeds with 200. -/
theorem claim5_counterexample :
    (CatRoute.GET ⟨none, some "热门", some "tv", none, none⟩ (some "k")
      (JsModel.Upstream.ok [])).status = 200
  ∧ (((CatRoute.GET ⟨none, some "热门", some "tv", none, none⟩ (some "k")
      (JsModel.Upstream.ok [])).status = 400) = False) :=
  ⟨rfl, eq_false (by decide)⟩

/-- Claim C5 (amended): a missing (or empty) `tag`/`type` parameter in
the search-style variant, or a missing `category`/`type` in the category
variant, yields HTTP 400 with no outbound call, as does a page size that
parses to an integer outside `[1,100]` or a negative page offset; the
`kind` parameter of the category variant, however, is defaulted to
`"movie"` when missing and therefore never triggers the 400. -/
theorem claim5_theorem :
    (∀ (req : TmdbRouteA.Req) (key : Option String) (u : JsModel.Upstream),
      (JsModel.jsTruthyOptStr req.tag = false ∨
        JsModel.jsTruthyOptStr req.type = false) →
      (TmdbRouteA.GET req key u).status = 400 ∧
        (TmdbRouteA.GET req key u).request = none)
  ∧ (∀ (req : CatRoute.Req) (key : Option String) (u : JsModel.Upstream),
      (JsModel.jsTruthyOptStr req.category = false ∨
        JsModel.jsTruthyOptStr req.type = false) →
      (CatRoute.GET req key u).status = 400 ∧
        (CatRoute.GET req key u).request = none)
  ∧ (∀ (req : TmdbRouteA.Req) (key : Option String) (u : JsModel.Upstream)
      (n : Int),
      JsModel.parseIntJS (JsModel.jsOrDefault req.pageSize "20") = some n →
      (n < 1 ∨ n > 100) →
      (TmdbRouteA.GET req key u).status = 400 ∧
        (TmdbRouteA.GET req key u).request = none)
  ∧ (∀ (req : TmdbRouteA.Req) (key : Option String) (u : JsModel.Upstream)
      (n : Int),
      JsModel.parseIntJS (JsModel.jsOrDefault req.pageStart "0") = some n →
      n < 0 →
      (TmdbRouteA.GET req key u).status = 400 ∧
        (TmdbRouteA.GET req key u).request = none)
  ∧ (∀ (req : CatRoute.Req) (key : Option String) (u : JsModel.Upstream)
      (n : Int),
      JsModel.parseIntJS (JsModel.jsOrDefault req.limit "20") = some n →
      (n < 1 ∨ n > 100) →
      (CatRoute.GET req key u).status = 400 ∧
        (CatRoute.GET req key u).request = none)
  ∧ (∀ (req : CatRoute.Req) (key : Option String) (u : JsModel.Upstream)
      (n : Int),
      JsModel.parseIntJS (JsModel.jsOrDefault req.start "0") = some n →
      n < 0 →
      (CatRoute.GET req key u).status = 400 ∧
        (CatRoute.GET req key u).request = none) := by
  refine ⟨?_, ?_, ?_, ?_, ?_, ?_⟩
  · intro req key u h
    simp only [TmdbRouteA.GET]
    repeat' split
    all_goals
      first
      | exact ⟨rfl, rfl⟩
      | (exfalso; simp_all [JsModel.jsLt, JsModel.jsGt])
  · intro req key u h
    simp only [CatRoute.GET]
    repeat' split
    all_goals
      first
      | exact ⟨rfl, rfl⟩
      | (exfalso; simp_all [JsModel.jsLt, JsModel.jsGt])
  · intro req key u n hn hr
    simp only [TmdbRouteA.GET]
    repeat' split
    all_goals
      first
      | exact ⟨rfl, rfl⟩
      | (exfalso; simp_all [JsModel.jsLt, JsModel.jsGt]; try omega)
  · intro req key u n hn hr
    simp only [TmdbRouteA.GET]
    repeat' split
    all_goals
      first
      | exact ⟨rfl, rfl⟩
      | (exfalso; simp_all [JsModel.jsLt, JsModel.jsGt]; try omega)
  · intro req key u n hn hr
    simp only [CatRoute.GET]
    repeat' split
    all_goals
      first
      | exact ⟨rfl, rfl⟩
      | (exfalso; simp_all [JsModel.jsLt, JsModel.jsGt]; try omega)
  · intro req key u n hn hr
    simp only [CatRoute.GET]
    repeat' split
    all_goals
      first
      | exact ⟨rfl, rfl⟩
      | (exfalso; simp_all [JsModel.jsLt, JsModel.jsGt]; try omega)

/-- Claim C5 (witness): a request with no `tag`, and a request with
`pageSize=0`, are both rejected with 400 and no outbound call. -/
theorem claim5_witness :
    ((TmdbRouteA.GET ⟨none, some "movie", none, none⟩ (some "k")
        (JsModel.Upstream.ok [])).status = 400
      ∧ (TmdbRouteA.GET ⟨none, some "movie", none, none⟩ (some "k")
          (JsModel.Upstream.ok [])).request = none)
  ∧ ((TmdbRouteA.GET ⟨some "热门", some "movie", some "0", none⟩ (some "k")
        (JsModel.Upstream.ok [])).status = 400
      ∧ (TmdbRouteA.GET ⟨some "热门", some "movie", some "0", none⟩ (some "k")
          (JsModel.Upstream.ok [])).request = none) :=
  ⟨claim5_theorem.1 ⟨none, some "movie", none, none⟩ (some "k")
      (JsModel.Upstream.ok []) (Or.inl rfl),
    claim5_theorem.2.2.1 ⟨some "热门", some "movie", some "0", none⟩ (some "k")
      (JsModel.Upstream.ok []) 0 rfl (Or.inl (by decide))⟩

/-- Claim C6: the upstream page number sent is `floor(offset/limit)+1`
— concretely offset 0/limit 20 gives page 1, offset 20 gives page 2 and
offset 25 gives page 2; in general, for any valid request the issued
request of the strategy route carries `page = s.fdiv l + 1`, and the
search route interpolates the same page number. -/
theorem claim6_theorem :
    (Option.map (fun r => JsModel.pget r.2 "page")
        (TmdbRouteA.GET ⟨some "热门", some "tv", some "20", some "0"⟩
          (some "k") (JsModel.Upstream.ok [])).request =
      some (some (JsModel.PValue.num (some 1))))
  ∧ (Option.map (fun r => JsModel.pget r.2 "page")
        (TmdbRouteA.GET ⟨some "热门", some "tv", some "20", some "20"⟩
          (some "k") (JsModel.Upstream.ok [])).request =
      some (some (JsModel.PValue.num (some 2))))
  ∧ (Option.map (fun r => JsModel.pget r.2 "page")
        (TmdbRouteA.GET ⟨some "热门", some "tv", some "20", some "25"⟩
          (some "k") (JsModel.Upstream.ok [])).request =
      some (some (JsModel.PValue.num (some 2))))
  ∧ (∀ (tg ty : String) (psz pst : Option String) (key : String)
      (u : JsModel.Upstream) (s l : Int),
      tg ≠ "" → (ty = "tv" ∨ ty = "movie") → ¬(tg = "综艺" ∧ ty = "movie") →
      key ≠ "" →
      JsModel.parseIntJS (JsModel.jsOrDefault psz "20") = some l →
      JsModel.parseIntJS (JsModel.jsOrDefault pst "0") = some s →
      1 ≤ l → l ≤ 100 → 0 ≤ s →
      (TmdbRouteA.GET ⟨some tg, some ty, psz, pst⟩ (some key) u).request =
        some ((TmdbUtils.getSearchStrategy tg ty).endpoint,
          JsModel.pset (TmdbUtils.getSearchStrategy tg ty).params "page"
            (JsModel.PValue.num (some (Int.fdiv s l + 1)))))
  ∧ (∀ (tg ty : String) (psz pst : Option String) (key : String)
      (u : JsModel.Upstream) (s l : Int),
      tg ≠ "" → (ty = "tv" ∨ ty = "movie") → key ≠ "" →
      JsModel.parseIntJS (JsModel.jsOrDefault psz "20") = some l →
      JsModel.parseIntJS (JsModel.jsOrDefault pst "0") = some s →
      1 ≤ l → l ≤ 100 → 0 ≤ s →
      (SearchRoute.GET ⟨some tg, some ty, psz, pst⟩ (some key) u).request =
        some ⟨ty, tg, some (Int.fdiv s l + 1)⟩) := by
  refine ⟨by decide, by decide, by decide, ?_, ?_⟩
  · intro tg ty psz pst key u s l htg hty hzy hkey hl hs h1 h100 h0
    have hty' : ty ≠ "" := by rcases hty with h | h <;> simp [h]
    simp only [TmdbRouteA.GET, Option.getD_some]
    rw [hl, hs]
    rw [if_neg (by simp [JsModel.jsTruthyOptStr, htg, hty'])]
    rw [if_neg (not_not_intro hty)]
    rw [if_neg (by simp [JsModel.jsLt, JsModel.jsGt]; omega)]
    rw [if_neg (by simp [JsModel.jsLt]; omega)]
    rw [if_neg (by simp [JsModel.jsTruthyOptStr, hkey])]
    rw [if_neg hzy]
    have hfd : JsModel.jsFloorDivPlus1 (some s) (some l) =
        some (Int.fdiv s l + 1) := by
      have hl0 : l ≠ 0 := by omega
      simp [JsModel.jsFloorDivPlus1, hl0]
    rw [hfd]
    cases u <;> rfl
  · intro tg ty psz pst key u s l htg hty hkey hl hs h1 h100 h0
    have hty' : ty ≠ "" := by rcases hty with h | h <;> simp [h]
    simp only [SearchRoute.GET, Option.getD_some]
    rw [hl, hs]
    rw [if_neg (by simp [JsModel.jsTruthyOptStr, htg, hty'])]
    rw [if_neg (not_not_intro hty)]
    rw [if_neg (by simp [JsModel.jsLt, JsModel.jsGt]; omega)]
    rw [if_neg (by simp [JsModel.jsLt]; omega)]
    rw [if_neg (by simp [JsModel.jsTruthyOptStr, hkey])]
    have hfd : JsModel.jsFloorDivPlus1 (some s) (some l) =
        some (Int.fdiv s l + 1) := by
      have hl0 : l ≠ 0 := by omega
      simp [JsModel.jsFloorDivPlus1, hl0]
    rw [hfd]
    cases u <;> rfl

/-- Claim C6 (witness): offset 25 with limit 20 yields upstream page 2
on a concrete valid request. -/
theorem claim6_witness :
    (TmdbRouteA.GET ⟨some "热门", some "tv", some "20", some "25"⟩
      (some "k") (JsModel.Upstream.ok [])).request =
      some ((TmdbUtils.getSearchStrategy "热门" "tv").endpoint,
        JsModel.pset (TmdbUtils.getSearchStrategy "热门" "tv").params "page"
          (JsModel.PValue.num (some 2))) :=
  claim6_theorem.2.2.2.1 "热门" "tv" (some "20") (some "25") "k"
    (JsModel.Upstream.ok []) 25 20 (by decide) (Or.inl rfl) (by decide)
    (by decide) rfl rfl (by decide) (by decide) (by decide)

/-- Claim C3 (counterexample): the free-text search route maps an
upstream 429 to HTTP 500 with the generic message, not to 429 — its
catch block implements no error taxonomy. -/
theorem claim3_counterexample :
    (SearchRoute.GET ⟨some "foo", some "movie", none, none⟩ (some "k")
      (JsModel.Upstream.httpStatus 429)).status = 500
  ∧ (((SearchRoute.GET ⟨some "foo", some "movie", none, none⟩ (some "k")
      (JsModel.Upstream.httpStatus 429)).status = 429) = False) :=
  ⟨rfl, eq_false (by decide)⟩

set_option maxRecDepth 10000 in
lemma tmdbErrorMsg_no_match :
    ∀ c : Nat, c < 600 → c ≠ 401 → c ≠ 429 → c ≠ 500 →
      (JsModel.strIncludes ("TMDB API error: " ++ toString c) "401" = false ∧
       JsModel.strIncludes ("TMDB API error: " ++ toString c) "429" = false ∧
       JsModel.strIncludes ("TMDB API error: " ++ toString c) "500" = false) := by
  decide

/-- Claim C3 (amended): the strategy route maps fetch failures per the
taxonomy — abort to 408 with the timeout message, upstream 429 to 429,
upstream 500 to 502, upstream 401 to 500, and any other upstream status
below 600 or other exception to 500 with the generic message — while
the free-text search route maps every fetch failure to HTTP 500 with
its generic message. -/
theorem claim3_theorem :
    ((TmdbRouteA.GET ⟨some "热门", some "movie", none, none⟩ (some "k")
        JsModel.Upstream.abort).status = 408
      ∧ (TmdbRouteA.GET ⟨some "热门", some "movie", none, none⟩ (some "k")
          JsModel.Upstream.abort).body = JsModel.Body.err "请求超时，请稍后重试")
  ∧ (TmdbRouteA.GET ⟨some "热门", some "movie", none, none⟩ (some "k")
      (JsModel.Upstream.httpStatus 429)).status = 429
  ∧ (TmdbRouteA.GET ⟨some "热门", some "movie", none, none⟩ (some "k")
      (JsModel.Upstream.httpStatus 500)).status = 502
  ∧ ((TmdbRouteA.GET ⟨some "热门", some "movie", none, none⟩ (some "k")
        (JsModel.Upstream.httpStatus 401)).status = 500
      ∧ (TmdbRouteA.GET ⟨some "热门", some "movie", none, none⟩ (some "k")
          (JsModel.Upstream.httpStatus 401)).body =
        JsModel.Body.err "TMDB API Key 无效")
  ∧ (∀ c : Nat, c < 600 → c ≠ 401 → c ≠ 429 → c ≠ 500 →
      (TmdbRouteA.GET ⟨some "热门", some "movie", none, none⟩ (some "k")
          (JsModel.Upstream.httpStatus c)).status = 500
        ∧ (TmdbRouteA.GET ⟨some "热门", some "movie", none, none⟩ (some "k")
            (JsModel.Upstream.httpStatus c)).body =
          JsModel.Body.err "获取 TMDB 搜索数据失败")
  ∧ (∀ n m : String, n ≠ "AbortError" →
      JsModel.strIncludes m "401" = false →
      JsModel.strIncludes m "429" = false →
      JsModel.strIncludes m "500" = false →
      (TmdbRouteA.GET ⟨some "热门", some "movie", none, none⟩ (some "k")
          (JsModel.Upstream.exn n m)).status = 500
        ∧ (TmdbRouteA.GET ⟨some "热门", some "movie", none, none⟩ (some "k")
            (JsModel.Upstream.exn n m)).body =
          JsModel.Body.err "获取 TMDB 搜索数据失败")
  ∧ (∀ u : JsModel.Upstream, (∀ items, u ≠ JsModel.Upstream.ok items) →
      (SearchRoute.GET ⟨some "foo", some "movie", none, none⟩ (some "k")
          u).status = 500
        ∧ (SearchRoute.GET ⟨some "foo", some "movie", none, none⟩ (some "k")
            u).body = JsModel.Body.err "获取 TMDB 搜索数据失败") := by
  refine ⟨by decide, by decide, by decide, by decide, ?_, ?_, ?_⟩
  · intro c hc h1 h2 h3
    obtain ⟨k1, k2, k3⟩ := tmdbErrorMsg_no_match c hc h1 h2 h3
    constructor
    · show (JsModel.tmdbRouteCatch "获取 TMDB 搜索数据失败"
          (JsModel.errorOf (JsModel.Upstream.httpStatus c))).1 = 500
      simp [JsModel.tmdbRouteCatch, JsModel.errorOf, k1, k2, k3]
    · show JsModel.Body.err (JsModel.tmdbRouteCatch "获取 TMDB 搜索数据失败"
          (JsModel.errorOf (JsModel.Upstream.httpStatus c))).2 =
        JsModel.Body.err "获取 TMDB 搜索数据失败"
      simp [JsModel.tmdbRouteCatch, JsModel.errorOf, k1, k2, k3]
  · intro n m hn h1 h2 h3
    constructor
    · show (JsModel.tmdbRouteCatch "获取 TMDB 搜索数据失败"
          (JsModel.errorOf (JsModel.Upstream.exn n m))).1 = 500
      simp [JsModel.tmdbRouteCatch, JsModel.errorOf, hn, h1, h2, h3]
    · show JsModel.Body.err (JsModel.tmdbRouteCatch "获取 TMDB 搜索数据失败"
          (JsModel.errorOf (JsModel.Upstream.exn n m))).2 =
        JsModel.Body.err "获取 TMDB 搜索数据失败"
      simp [JsModel.tmdbRouteCatch, JsModel.errorOf, hn, h1, h2, h3]
  · intro u hu
    cases u with
    | ok items => exact absurd rfl (hu items)
    | httpStatus c => exact ⟨rfl, rfl⟩
    | abort => exact ⟨rfl, rfl⟩
    | exn n m => exact ⟨rfl, rfl⟩

/-- Claim C3 (witness): a 404 upstream status maps to the generic 500,
and a timed-out call to the search route maps to 500 as well. -/
theorem claim3_witness :
    ((TmdbRouteA.GET ⟨some "热门", some "movie", none, none⟩ (some "k")
        (JsModel.Upstream.httpStatus 404)).status = 500
      ∧ (TmdbRouteA.GET ⟨some "热门", some "movie", none, none⟩ (some "k")
          (JsModel.Upstream.httpStatus 404)).body =
        JsModel.Body.err "获取 TMDB 搜索数据失败")
  ∧ ((SearchRoute.GET ⟨some "foo", some "movie", none, none⟩ (some "k")
        JsModel.Upstream.abort).status = 500
      ∧ (SearchRoute.GET ⟨some "foo", some "movie", none, none⟩ (some "k")
          JsModel.Upstream.abort).body =
        JsModel.Body.err "获取 TMDB 搜索数据失败") :=
  ⟨claim3_theorem.2.2.2.2.1 404 (by decide) (by decide) (by decide) (by decide),
    claim3_theorem.2.2.2.2.2.2 JsModel.Upstream.abort
      (fun items h => JsModel.Upstream.noConfusion h)⟩

/-- Claim C8: the documented normalization holds in both converter
families — `release_date="2021-07-04"` and `vote_average=7.0` give
`year="2021"`, `rate="7.0"`; an empty/missing date, rating or poster
gives the empty string; a non-empty poster path gives the full image
URL with the fixed `w500` size segment; `id` is the decimal string of
the numeric upstream id. -/
theorem claim8_theorem :
    (TmdbUtils.convertTMDBMovieToDoubanItem
        ⟨123, "T", "OT", some "/p.jpg", "2021-07-04", some 7⟩ =
      ⟨"123", "T", "https://image.tmdb.org/t/p/w500/p.jpg", "7.0", "2021"⟩)
  ∧ (SearchRoute.convertTMDBMovieToDoubanItem
        ⟨123, "T", "/p.jpg", some 7, "2021-07-04"⟩ =
      ⟨"123", "T", "https://image.tmdb.org/t/p/w500/p.jpg", "7.0", "2021"⟩)
  ∧ (TmdbUtils.convertTMDBMovieToDoubanItem ⟨55, "T", "OT", none, "", none⟩ =
      ⟨"55", "T", "", "", ""⟩)
  ∧ (∀ m : TmdbUtils.TMDBMovie, m.release_date = "" →
      (TmdbUtils.convertTMDBMovieToDoubanItem m).year = "")
  ∧ (∀ m : TmdbUtils.TMDBMovie, JsModel.jsTruthyQ m.vote_average = false →
      (TmdbUtils.convertTMDBMovieToDoubanItem m).rate = "")
  ∧ (∀ m : TmdbUtils.TMDBMovie, JsModel.jsTruthyOptStr m.poster_path = false →
      (TmdbUtils.convertTMDBMovieToDoubanItem m).poster = "")
  ∧ (∀ m : TmdbUtils.TMDBMovie, JsModel.jsTruthyOptStr m.poster_path = true →
      (TmdbUtils.convertTMDBMovieToDoubanItem m).poster =
        "https://image.tmdb.org/t/p/w500" ++ m.poster_path.getD "")
  ∧ (∀ m : TmdbUtils.TMDBMovie,
      (TmdbUtils.convertTMDBMovieToDoubanItem m).id = toString m.id)
  ∧ (∀ m : SearchRoute.TMDBMovie, m.release_date = "" →
      (SearchRoute.convertTMDBMovieToDoubanItem m).year = "")
  ∧ (∀ m : SearchRoute.TMDBMovie, JsModel.jsTruthyQ m.vote_average = false →
      (SearchRoute.convertTMDBMovieToDoubanItem m).rate = "")
  ∧ (∀ m : SearchRoute.TMDBMovie, m.poster_path = "" →
      (SearchRoute.convertTMDBMovieToDoubanItem m).poster = "")
  ∧ (∀ m : SearchRoute.TMDBMovie, m.poster_path ≠ "" →
      (SearchRoute.convertTMDBMovieToDoubanItem m).poster =
        "https://image.tmdb.org/t/p/w500" ++ m.poster_path)
  ∧ (∀ m : SearchRoute.TMDBMovie,
      (SearchRoute.convertTMDBMovieToDoubanItem m).id = toString m.id) := by
  refine ⟨by decide, by decide, by decide, ?_, ?_, ?_, ?_,
    fun m => rfl, ?_, ?_, ?_, ?_, fun m => rfl⟩
  · intro m h
    simp [TmdbUtils.convertTMDBMovieToDoubanItem, h]
  · intro m h
    simp [TmdbUtils.convertTMDBMovieToDoubanItem, h]
  · intro m h
    simp [TmdbUtils.convertTMDBMovieToDoubanItem, h]
  · intro m h
    simp [TmdbUtils.convertTMDBMovieToDoubanItem, h]
  · intro m h
    simp [SearchRoute.convertTMDBMovieToDoubanItem, SearchRoute.extractYear, h]
  · intro m h
    simp [SearchRoute.convertTMDBMovieToDoubanItem, h]
  · intro m h
    simp [SearchRoute.convertTMDBMovieToDoubanItem, SearchRoute.getTMDBImageUrl, h]
  · intro m h
    simp [SearchRoute.convertTMDBMovieToDoubanItem, SearchRoute.getTMDBImageUrl, h]

/-- Claim C8 (witness): the empty-date and nonempty-poster facts
instantiated at concrete items. -/
theorem claim8_witness :
    (TmdbUtils.convertTMDBMovieToDoubanItem
        ⟨9, "T", "OT", none, "", none⟩).year = ""
  ∧ (TmdbUtils.convertTMDBMovieToDoubanItem
        ⟨9, "T", "OT", some "/x.png", "1999-01-01", some 8⟩).poster =
      "https://image.tmdb.org/t/p/w500" ++ (some "/x.png").getD "" :=
  ⟨claim8_theorem.2.2.2.1 ⟨9, "T", "OT", none, "", none⟩ rfl,
    claim8_theorem.2.2.2.2.2.2.1
      ⟨9, "T", "OT", some "/x.png", "1999-01-01", some 8⟩ rfl⟩
